import Mathlib

/-!
Verification of the coinpulse repository's typed fetch client
(`src/lib/utils.ts`, `coingecko.action` section) and table primitives
(`src/components/ui/table.tsx`) against its natural-language specification.

The TypeScript code is shallowly embedded: the query-string library calls
(`qs.stringifyUrl` with `skipEmptyString`/`skipNull`) are modelled from the
library's behaviour at the call site, `fetch` responses are explicit records,
and JSX output is an explicit tree of elements.
-/

namespace Coinpulse

/-- A JSON value, as produced by `response.json()` / `JSON.parse`. -/
inductive Json where
  | null
  | bool (b : Bool)
  | num (n : Int)
  | str (s : String)
  | arr (xs : List Json)
  | obj (fields : List (String × Json))

/-- Look up a field of a JSON object (JavaScript property access `j.k`);
`none` when the value is not an object or lacks the field (JS `undefined`). -/
def Json.getField : Json → String → Option Json
  | .obj fields, k => fields.lookup k
  | _, _ => none

/-- JavaScript truthiness of a JSON value: `null`, `false`, `0`, and `""`
are falsy; every other value (including arrays and objects) is truthy. -/
def Json.truthy : Json → Bool
  | .null => false
  | .bool b => b
  | .num n => n != 0
  | .str s => s != ""
  | .arr _ => true
  | .obj _ => true

mutual

/-- JavaScript string coercion of a JSON value, as used by template-literal
interpolation. Only the string case matters for the fetcher's messages. -/
def Json.jsToString : Json → String
  | .null => "null"
  | .bool b => cond b "true" "false"
  | .num n => toString n
  | .str s => s
  | .arr xs => String.intercalate "," (Json.jsToStringList xs)
  | .obj _ => "[object Object]"

/-- String coercions of a list of JSON values (array elements). -/
def Json.jsToStringList : List Json → List String
  | [] => []
  | x :: xs => Json.jsToString x :: Json.jsToStringList xs

end

/-- A value of the fetcher's `QueryParams` mapping:
`string | number | boolean | null | undefined`. -/
inductive QueryValue where
  | null
  | undef
  | str (s : String)
  | num (n : Int)
  | bool (b : Bool)
deriving DecidableEq, Repr

/-- JavaScript `String(v)` for a query value. -/
def QueryValue.toStringJS : QueryValue → String
  | .null => "null"
  | .undef => "undefined"
  | .str s => s
  | .num n => toString n
  | .bool b => cond b "true" "false"

/-- Whether the query-string library keeps a key with this value when called
with `skipNull: true` (drops `null` and `undefined`) and
`skipEmptyString: true` (drops `""`). -/
def QueryValue.kept : QueryValue → Bool
  | .null => false
  | .undef => false
  | .str s => s != ""
  | .num _ => true
  | .bool _ => true

/-- A character left unescaped by strict percent-encoding
(`encodeURIComponent` plus escaping of `!'()*`): ASCII alphanumerics
and `-`, `_`, `.`, `~`. -/
def uriUnreserved (c : Char) : Bool :=
  c.isAlphanum || c == '-' || c == '_' || c == '.' || c == '~'

/-- Uppercase hexadecimal digit for `n < 16`. -/
def hexDigit (n : Nat) : Char :=
  if n < 10 then Char.ofNat ('0'.toNat + n) else Char.ofNat ('A'.toNat + n - 10)

/-- Percent-encoding of one byte, e.g. `0x20 ↦ "%20"`. -/
def percentByte (b : UInt8) : String :=
  String.mk ['%', hexDigit (b.toNat / 16), hexDigit (b.toNat % 16)]

/-- Strict percent-encoding of one character: unreserved characters stand for
themselves, every other character becomes the percent-encoding of its UTF-8
bytes. -/
def encodeChar (c : Char) : String :=
  if uriUnreserved c then String.singleton c
  else String.join ((String.utf8EncodeChar c).map percentByte)

/-- Strict percent-encoding of a string (the query-string library's default
`strict: true`, `encode: true`). -/
def strictUriEncode (s : String) : String :=
  String.join (s.data.map encodeChar)

/-- Insert a key-value pair into a list sorted by key (ascending). -/
def insertByKey (p : String × QueryValue) :
    List (String × QueryValue) → List (String × QueryValue)
  | [] => [p]
  | q :: rest => if p.1 ≤ q.1 then p :: q :: rest else q :: insertByKey p rest

/-- Sort key-value pairs by key, as the query-string library sorts the
remaining keys alphabetically by default before serializing. -/
def sortByKey : List (String × QueryValue) → List (String × QueryValue)
  | [] => []
  | p :: rest => insertByKey p (sortByKey rest)

/-- The key-value pairs that make it into the serialized query: pairs whose
value survives `skipNull`/`skipEmptyString`, in the library's key order. -/
def queryPairs (params : List (String × QueryValue)) :
    List (String × QueryValue) :=
  sortByKey (params.filter fun kv => kv.2.kept)

/-- Serialization of one kept pair: percent-encoded key, `=`,
percent-encoded stringified value. -/
def pairString (kv : String × QueryValue) : String :=
  strictUriEncode kv.1 ++ "=" ++ strictUriEncode kv.2.toStringJS

/-- The query string built by `qs.stringifyUrl`'s stringify step with
`{ skipEmptyString: true, skipNull: true }`: drop empty/null/undefined
values, sort keys, serialize each pair, join with `&`. -/
def stringifyQuery (params : List (String × QueryValue)) : String :=
  String.intercalate "&" ((queryPairs params).map pairString)

/-- Model of `qs.stringifyUrl` for a url without an existing query or fragment (the
fetcher's `BASE_URL/endPoint` urls): append `?` and the encoded query when
the query is non-empty. -/
def stringifyUrl (url : String) (params : List (String × QueryValue)) :
    String :=
  let q := stringifyQuery params
  if q = "" then url else url ++ "?" ++ q

/-- The module-level configuration of `coingecko.action`: `BASE_URL` and
`API_KEY`, both read once from the environment at module load. -/
structure Config where
  baseUrl : String
  apiKey : String

/-- JavaScript falsiness of `process.env` lookup results
(`string | undefined`): `undefined` and `""` are falsy. -/
def envFalsy : Option String → Bool
  | none => true
  | some s => s == ""

/-- Module initialization of `coingecko.action`: read
`COINGECKO_BASE_URL` and `COINGECKO_API_KEY` from the environment and
throw (`if (!BASE_URL) throw ...`) when either is falsy, before any
function of the module can run. -/
def moduleInit (envBaseUrl envApiKey : Option String) :
    Except String Config :=
  if envFalsy envBaseUrl then .error "Could not get base url"
  else if envFalsy envApiKey then .error "Could not get api key"
  else .ok { baseUrl := envBaseUrl.getD "", apiKey := envApiKey.getD "" }

/-- The outbound HTTP request a `fetch` call describes: method (`GET` when
no `method` option is passed), url, headers in order, and the
`next.revalidate` cache hint. -/
structure Request where
  method : String
  url : String
  headers : List (String × String)
  revalidate : Nat

/-- An HTTP response as the fetcher observes it: status code, status text,
and the result of parsing the body as JSON (`none` when the body is not
valid JSON, so that `response.json()` rejects). -/
structure HttpResponse where
  status : Nat
  statusText : String
  jsonBody : Option Json

/-- Property `response.ok`: status in the success range 200–299. -/
def HttpResponse.ok (r : HttpResponse) : Bool :=
  decide (200 ≤ r.status) && decide (r.status ≤ 299)

/-- How a fetcher call ends: with the parsed JSON body, with the thrown
`API Error` (carrying its full message), or with the rejection of
`response.json()` on a success response whose body is not valid JSON. -/
inductive FetchError where
  | api (message : String)
  | decode
deriving DecidableEq, Repr

/-- The request issued by
`fetcher(endPoint, params, revalidate)`: a GET to
`BASE_URL/endPoint` with the encoded query appended, carrying the
`x-cg-demo-api-key` and `Content-Type` headers and the `next.revalidate`
hint. -/
def fetcherRequest (cfg : Config) (endPoint : String)
    (params : List (String × QueryValue)) (revalidate : Nat := 60) :
    Request :=
  { method := "GET"
    url := stringifyUrl (cfg.baseUrl ++ "/" ++ endPoint) params
    headers := [("x-cg-demo-api-key", cfg.apiKey),
                ("Content-Type", "application/json")]
    revalidate := revalidate }

/-- The requests one `fetcher` call issues, in order: the source calls
`fetch` exactly once. -/
def fetcherRequests (cfg : Config) (endPoint : String)
    (params : List (String × QueryValue)) (revalidate : Nat := 60) :
    List Request :=
  [fetcherRequest cfg endPoint params revalidate]

/-- The message interpolated after the status:
`errorBody.error || response.statusText`. -/
def errorText (errorBody : Json) (statusText : String) : String :=
  match errorBody.getField "error" with
  | some v => if v.truthy then v.jsToString else statusText
  | none => statusText

/-- How the fetcher consumes the response: on `!response.ok`, parse the
body as JSON falling back to `{}` (`.catch(() => ({}))`) and throw
`` `API Error: ${response.status}: ${errorBody.error || response.statusText}` ``;
otherwise return `response.json()`. -/
def fetcherResponse (resp : HttpResponse) : Except FetchError Json :=
  if !resp.ok then
    let errorBody : Json := resp.jsonBody.getD (Json.obj [])
    .error (.api ("API Error: " ++ toString resp.status ++ ": " ++
      errorText errorBody resp.statusText))
  else
    match resp.jsonBody with
    | some j => .ok j
    | none => .error .decode

/-- The whole fetcher call against a transport: issue the one request and
consume the response. -/
def fetcher (cfg : Config) (endPoint : String)
    (params : List (String × QueryValue)) (revalidate : Nat := 60)
    (transport : Request → HttpResponse) : Except FetchError Json :=
  fetcherResponse (transport (fetcherRequest cfg endPoint params revalidate))

/-- Rendered markup: an element with a tag, attributes in order (the
forwarded React props, children among them, are opaque attributes), and
child elements. -/
inductive Node where
  | el (tag : String) (attrs : List (String × String)) (children : List Node)

/-- Tag of an element. -/
def Node.tag : Node → String
  | .el t _ _ => t

/-- Attributes of an element, in order. -/
def Node.attrs : Node → List (String × String)
  | .el _ a _ => a

/-- Child elements of an element. -/
def Node.children : Node → List Node
  | .el _ _ c => c

mutual

/-- How many elements of a given tag a node tree contains. -/
def Node.countTag (tag : String) : Node → Nat
  | .el t _ children => (if t = tag then 1 else 0) + Node.countTagList tag children

/-- How many elements of a given tag a list of node trees contains. -/
def Node.countTagList (tag : String) : List Node → Nat
  | [] => 0
  | n :: ns => Node.countTag tag n + Node.countTagList tag ns

end

/-- Function `cn` from `src/lib/utils.ts` (`twMerge(clsx(inputs))`) as it acts on
plain string inputs: drop absent and empty inputs and join the rest with
single spaces (the components' default classes never conflict with each
other, so Tailwind conflict resolution leaves them unchanged). -/
def cn (inputs : List (Option String)) : String :=
  String.intercalate " " ((inputs.filterMap id).filter (fun s => s ≠ ""))

/-- The `React.ComponentProps` a table primitive receives: the
destructured `className` and the remaining props spread onto the
element. -/
structure ElemProps where
  className : Option String
  rest : List (String × String)

/-- Component `Table`: a `div` with `data-slot="table-container"` wrapping one
`table` with `data-slot="table"`, merged classes, and the remaining props
spread onto the `table`. -/
def Table (p : ElemProps) : Node :=
  .el "div"
    [("data-slot", "table-container"),
     ("class", "relative w-full overflow-x-auto")]
    [.el "table"
      ([("data-slot", "table"),
        ("class", cn [some "w-full caption-bottom text-sm", p.className])] ++
        p.rest) []]

/-- Component `TableHeader`: a `thead` with `data-slot="table-header"`. -/
def TableHeader (p : ElemProps) : Node :=
  .el "thead"
    ([("data-slot", "table-header"),
      ("class", cn [some "[&_tr]:border-b", p.className])] ++ p.rest) []

/-- Component `TableBody`: a `tbody` with `data-slot="table-body"`. -/
def TableBody (p : ElemProps) : Node :=
  .el "tbody"
    ([("data-slot", "table-body"),
      ("class", cn [some "[&_tr:last-child]:border-0", p.className])] ++
      p.rest) []

/-- Component `TableFooter`: a `tfoot` with `data-slot="table-footer"`. -/
def TableFooter (p : ElemProps) : Node :=
  .el "tfoot"
    ([("data-slot", "table-footer"),
      ("class",
        cn [some "bg-muted/50 border-t font-medium [&>tr]:last:border-b-0",
            p.className])] ++ p.rest) []

/-- Component `TableRow`: a `tr` with `data-slot="table-row"`. -/
def TableRow (p : ElemProps) : Node :=
  .el "tr"
    ([("data-slot", "table-row"),
      ("class",
        cn [some
          "hover:bg-muted/50 data-[state=selected]:bg-muted border-b transition-colors",
          p.className])] ++ p.rest) []

/-- Component `TableHead`: a `th` with `data-slot="table-head"`. -/
def TableHead (p : ElemProps) : Node :=
  .el "th"
    ([("data-slot", "table-head"),
      ("class",
        cn [some
          "text-foreground h-10 px-2 text-left align-middle font-medium whitespace-nowrap [&:has([role=checkbox])]:pr-0 [&>[role=checkbox]]:translate-y-[2px]",
          p.className])] ++ p.rest) []

/-- Component `TableCell`: a `td` with `data-slot="table-cell"`. -/
def TableCell (p : ElemProps) : Node :=
  .el "td"
    ([("data-slot", "table-cell"),
      ("class",
        cn [some
          "p-2 align-middle whitespace-nowrap [&:has([role=checkbox])]:pr-0 [&>[role=checkbox]]:translate-y-[2px]",
          p.className])] ++ p.rest) []

/-- Component `TableCaption`: a `caption` with `data-slot="table-caption"`. -/
def TableCaption (p : ElemProps) : Node :=
  .el "caption"
    ([("data-slot", "table-caption"),
      ("class", cn [some "text-muted-foreground mt-4 text-sm", p.className])] ++
      p.rest) []

/-- A column descriptor of the declarative table renderer: a header label
and a cell-producing function, with optional per-column classes. -/
structure DataTableColumn (ρ γ : Type) where
  header : γ
  cell : ρ → γ
  headerClassName : Option String := none
  cellClassName : Option String := none

/-- The structural output of the renderer: header cells in column order
and body rows, each carrying its row key and its cells in column order. -/
structure RenderedTable (κ γ : Type) where
  headerCells : List γ
  bodyRows : List (κ × List γ)

/-- Modelled from the spec: the `DataTable` component
(`@/components/DataTable`) is not among the provided sources, only its
callers are; §4.3 of the spec defines `render(rows, columns, rowIdentity)`
as producing one header cell per column carrying `header`, and, for each
row in input order, one output row keyed by `rowIdentity(row)` with one
cell per column holding `cell(row)`. -/
def renderDataTable {ρ κ γ : Type} (rows : List ρ)
    (columns : List (DataTableColumn ρ γ)) (rowKey : ρ → κ) :
    RenderedTable κ γ :=
  { headerCells := columns.map (fun c => c.header)
    bodyRows := rows.map (fun r => (rowKey r, columns.map (fun c => c.cell r))) }

/-! ## Supporting lemmas -/

/-- Inserting into a key-sorted list permutes consing. -/
theorem insertByKey_perm (p : String × QueryValue)
    (l : List (String × QueryValue)) : List.Perm (insertByKey p l) (p :: l) := by
  induction l with
  | nil => simp [insertByKey]
  | cons q rest ih =>
    simp only [insertByKey]
    by_cases h : p.1 ≤ q.1
    · simp [h]
    · simp only [h, if_neg]
      exact (ih.cons q).trans (List.Perm.swap p q rest)

/-- Sorting by key permutes the list. -/
theorem sortByKey_perm (l : List (String × QueryValue)) :
    List.Perm (sortByKey l) l := by
  induction l with
  | nil => exact List.Perm.refl _
  | cons p rest ih => exact (insertByKey_perm p (sortByKey rest)).trans (ih.cons p)

/-- The serialized pairs are a permutation of the kept input pairs. -/
theorem queryPairs_perm (P : List (String × QueryValue)) :
    List.Perm (queryPairs P) (P.filter (fun kv => kv.2.kept)) := sortByKey_perm _

/-- In a mapping with distinct keys, a key determines its value. -/
theorem key_unique {P : List (String × QueryValue)}
    (h : (P.map Prod.fst).Nodup) {k : String} {v v' : QueryValue}
    (h1 : (k, v) ∈ P) (h2 : (k, v') ∈ P) : v = v' := by
  induction P with
  | nil => cases h1
  | cons q rest ih =>
    simp only [List.map_cons, List.nodup_cons] at h
    rcases List.mem_cons.1 h1 with rfl | h1h
    · rcases List.mem_cons.1 h2 with h2h | h2h
      · simpa using congrArg Prod.snd h2h.symm
      · exact absurd (List.mem_map_of_mem Prod.fst h2h) h.1
    · rcases List.mem_cons.1 h2 with rfl | h2h
      · exact absurd (List.mem_map_of_mem Prod.fst h1h) h.1
      · exact ih h.2 h1h h2h

/-- An `API Error` message never equals the startup message for a missing
base url. -/
theorem apiMsg_ne_base (t : String) :
    "API Error: " ++ t ≠ "Could not get base url" := by
  intro h
  have h2 : (some 'A' : Option Char) = some 'C' :=
    congrArg (fun s => s.data.head?) h
  exact absurd h2 (by decide)

/-- An `API Error` message never equals the startup message for a missing
api key. -/
theorem apiMsg_ne_key (t : String) :
    "API Error: " ++ t ≠ "Could not get api key" := by
  intro h
  have h2 : (some 'A' : Option Char) = some 'C' :=
    congrArg (fun s => s.data.head?) h
  exact absurd h2 (by decide)

/-! ## Claims -/

/-- C1: for every parameter mapping, the query encoding used by `fetcher`
omits every key whose value is null, undefined, or the empty string, and
includes every other key exactly once with its stringified, percent-encoded
value, joined with `&` and `=`; in particular encoding
`{ page: 1, q: "", tag: null }` yields exactly `"page=1"`. -/
theorem C1_query_encoding (P : List (String × QueryValue))
    (hkeys : (P.map Prod.fst).Nodup) :
    (∀ k v, (k, v) ∈ P → v.kept = false →
        k ∉ (queryPairs P).map Prod.fst) ∧
    (∀ k v, (k, v) ∈ P → v.kept = true →
        ((queryPairs P).map Prod.fst).count k = 1 ∧ (k, v) ∈ queryPairs P) ∧
    stringifyQuery P =
      String.intercalate "&" ((queryPairs P).map fun kv =>
        strictUriEncode kv.1 ++ "=" ++ strictUriEncode kv.2.toStringJS) ∧
    stringifyQuery [("page", .num 1), ("q", .str ""), ("tag", .null)] =
      "page=1" := by
  refine ⟨?_, ?_, rfl, by decide⟩
  · intro k v hmem hdrop hk
    obtain ⟨⟨k2, v2⟩, hin, rfl⟩ := List.mem_map.1 hk
    have hin2 := (queryPairs_perm P).mem_iff.1 hin
    have h3 := List.mem_filter.1 hin2
    have : v = v2 := key_unique hkeys hmem h3.1
    rw [← this] at h3
    rw [hdrop] at h3
    exact absurd h3.2 (by simp)
  · intro k v hmem hkept
    have hfmem : (k, v) ∈ P.filter (fun kv => kv.2.kept) :=
      List.mem_filter.2 ⟨hmem, hkept⟩
    refine ⟨?_, (queryPairs_perm P).mem_iff.2 hfmem⟩
    have hperm : List.Perm ((queryPairs P).map Prod.fst)
        ((P.filter (fun kv => kv.2.kept)).map Prod.fst) :=
      (queryPairs_perm P).map Prod.fst
    rw [hperm.count_eq]
    have hsub : List.Sublist ((P.filter (fun kv => kv.2.kept)).map Prod.fst)
        (P.map Prod.fst) := (List.filter_sublist P).map Prod.fst
    exact List.count_eq_one_of_mem (hkeys.sublist hsub)
      (List.mem_map_of_mem Prod.fst hfmem)

/-- Witness for C1 at the spec scenario `{ page: 1, q: "", tag: null }`. -/
theorem C1_query_encoding_witness :
    stringifyQuery [("page", .num 1), ("q", .str ""), ("tag", .null)] =
      "page=1" :=
  (C1_query_encoding [("page", .num 1), ("q", .str ""), ("tag", .null)]
    (by decide)).2.2.2

/-- C2 counterexample: a 401 response whose JSON body has the error field
`""` raises `"API Error: 401: Unauthorized"` — not the message
`"API Error: 401: "` that the claim, read at `X = ""`, requires. -/
theorem C2_counterexample :
    fetcherResponse ⟨401, "Unauthorized", some (Json.obj [("error", Json.str "")])⟩ =
      Except.error (FetchError.api "API Error: 401: Unauthorized") ∧
    "API Error: 401: Unauthorized" ≠ "API Error: 401: " :=
  ⟨rfl, by decide⟩

/-- C2 (amended): for every response with non-success status and a JSON body
whose error field holds non-empty text `X`, the call fails exactly with the
error message `"API Error: "` followed by the status, `": "`, and `X`. -/
theorem C2_api_error_message (resp : HttpResponse) (X : String)
    (hok : resp.ok = false)
    (herr : (resp.jsonBody.getD (Json.obj [])).getField "error" =
      some (Json.str X))
    (hne : X ≠ "") :
    fetcherResponse resp = Except.error (FetchError.api
      ("API Error: " ++ toString resp.status ++ ": " ++ X)) := by
  simp [fetcherResponse, hok, errorText, herr, Json.truthy, Json.jsToString, hne]

/-- Witness for C2 at the spec scenario: status 401 with body
`{ "error": "bad key" }`. -/
theorem C2_api_error_message_witness :
    fetcherResponse ⟨401, "Unauthorized", some (Json.obj [("error", Json.str "bad key")])⟩ =
      Except.error (FetchError.api "API Error: 401: bad key") := by
  have h := C2_api_error_message
    ⟨401, "Unauthorized", some (Json.obj [("error", Json.str "bad key")])⟩
    "bad key" rfl rfl (by decide)
  simpa using h

/-- C3: for every response with non-success status and a body that is not
parseable as JSON, the error body is treated as empty and the call fails
with a message containing the status code and the status text (the reason
phrase); no JSON parse exception escapes (the outcome is the API error, not
a decode failure). -/
theorem C3_unparsable_error_body (resp : HttpResponse)
    (hok : resp.ok = false) (hbody : resp.jsonBody = none) :
    fetcherResponse resp = Except.error (FetchError.api
      ("API Error: " ++ toString resp.status ++ ": " ++ resp.statusText)) ∧
    (∃ a b, "API Error: " ++ toString resp.status ++ ": " ++ resp.statusText =
      a ++ toString resp.status ++ b) ∧
    (∃ c, "API Error: " ++ toString resp.status ++ ": " ++ resp.statusText =
      c ++ resp.statusText) ∧
    fetcherResponse resp ≠ Except.error FetchError.decode := by
  refine ⟨?_, ⟨"API Error: ", ": " ++ resp.statusText, by
      simp [String.append_assoc]⟩,
    ⟨"API Error: " ++ toString resp.status ++ ": ", by
      simp [String.append_assoc]⟩, ?_⟩
  · simp [fetcherResponse, hok, hbody, errorText, Json.getField]
  · simp [fetcherResponse, hok, hbody]

/-- Witness for C3 at a 500 response with an unparsable body. -/
theorem C3_unparsable_error_body_witness :
    fetcherResponse ⟨500, "Internal Server Error", none⟩ =
      Except.error (FetchError.api "API Error: 500: Internal Server Error") := by
  have h := C3_unparsable_error_body ⟨500, "Internal Server Error", none⟩ rfl rfl
  simpa using h.1

/-- C4: for every response with a status in the success range, `fetcher`
returns the response body parsed as JSON, unchanged and with no further
validation of its shape. -/
theorem C4_success_returns_parsed_body (resp : HttpResponse) (j : Json)
    (hok : resp.ok = true) (hbody : resp.jsonBody = some j) :
    fetcherResponse resp = Except.ok j := by
  simp [fetcherResponse, hok, hbody]

/-- Witness for C4 at the spec scenario: a 200 response with body
`{ "coins": [] }` resolves to that payload. -/
theorem C4_success_returns_parsed_body_witness :
    fetcherResponse ⟨200, "OK", some (Json.obj [("coins", Json.arr [])])⟩ =
      Except.ok (Json.obj [("coins", Json.arr [])]) :=
  C4_success_returns_parsed_body _ _ rfl rfl

/-- C5 counterexample: the request `fetcher` builds carries no `x-api-key`
header at all — the API key travels in the `x-cg-demo-api-key` header — so
the claim's header name is wrong at this concrete call. -/
theorem C5_counterexample :
    ((fetcherRequest ⟨"https://api.coingecko.com/api/v3", "demo-key"⟩
        "search/trending" []).headers.lookup "x-api-key" = none) ∧
    (("x-api-key", "demo-key") ∉
      (fetcherRequest ⟨"https://api.coingecko.com/api/v3", "demo-key"⟩
        "search/trending" []).headers) ∧
    ((fetcherRequest ⟨"https://api.coingecko.com/api/v3", "demo-key"⟩
        "search/trending" []).headers.lookup "x-cg-demo-api-key" =
      some "demo-key") :=
  ⟨rfl, by decide, rfl⟩

/-- C5 (amended): every `fetcher` call issues exactly one HTTP GET to
`{BASE_URL}/{endPoint}` with the encoded query appended when non-empty,
carrying the header `x-cg-demo-api-key` set to the configured API key and
the header `Content-Type` set to `application/json`. -/
theorem C5_request_shape (cfg : Config) (e : String)
    (P : List (String × QueryValue)) (r : Nat) :
    fetcherRequests cfg e P r = [fetcherRequest cfg e P r] ∧
    (fetcherRequests cfg e P r).length = 1 ∧
    (fetcherRequest cfg e P r).method = "GET" ∧
    (fetcherRequest cfg e P r).headers =
      [("x-cg-demo-api-key", cfg.apiKey), ("Content-Type", "application/json")] ∧
    (∀ transport, fetcher cfg e P r transport =
      fetcherResponse (transport (fetcherRequest cfg e P r))) ∧
    (stringifyQuery P = "" →
      (fetcherRequest cfg e P r).url = cfg.baseUrl ++ "/" ++ e) ∧
    (stringifyQuery P ≠ "" →
      (fetcherRequest cfg e P r).url =
        cfg.baseUrl ++ "/" ++ e ++ "?" ++ stringifyQuery P) := by
  refine ⟨rfl, rfl, rfl, rfl, fun _ => rfl, ?_, ?_⟩
  · intro h
    simp [fetcherRequest, stringifyUrl, h]
  · intro h
    simp [fetcherRequest, stringifyUrl, h]

/-- Witness for C5 at concrete calls with an empty and a non-empty query. -/
theorem C5_request_shape_witness :
    (fetcherRequest ⟨"b", "k"⟩ "e" [] 60).url = "b/e" ∧
    (fetcherRequest ⟨"b", "k"⟩ "e" [("page", .num 1)] 60).url = "b/e?page=1" := by
  constructor
  · exact (C5_request_shape ⟨"b", "k"⟩ "e" [] 60).2.2.2.2.2.1 (by decide)
  · have h := (C5_request_shape ⟨"b", "k"⟩ "e" [("page", .num 1)] 60).2.2.2.2.2.2
      (by decide)
    simpa using h

/-- C6 (modelled from the spec, the `DataTable` source being absent): for
every row collection (including the empty one) and column list, the
renderer produces exactly one header cell per column, one body row per row
with one cell per column holding `columns[i].cell(rows[j])`, and an empty
row collection yields a header-only table. -/
theorem C6_render_shape {ρ κ γ : Type} (rows : List ρ)
    (columns : List (DataTableColumn ρ γ)) (rowKey : ρ → κ) :
    (renderDataTable rows columns rowKey).headerCells.length = columns.length ∧
    (renderDataTable rows columns rowKey).bodyRows.length = rows.length ∧
    (∀ j, (hj : j < rows.length) →
      ∃ hj2 : j < (renderDataTable rows columns rowKey).bodyRows.length,
        ((renderDataTable rows columns rowKey).bodyRows.get ⟨j, hj2⟩).2.length =
          columns.length ∧
        ∀ i, (hi : i < columns.length) →
          ∃ hi2 : i <
              ((renderDataTable rows columns rowKey).bodyRows.get ⟨j, hj2⟩).2.length,
            ((renderDataTable rows columns rowKey).bodyRows.get ⟨j, hj2⟩).2.get
                ⟨i, hi2⟩ =
              (columns.get ⟨i, hi⟩).cell (rows.get ⟨j, hj⟩)) ∧
    (rows = [] → (renderDataTable rows columns rowKey).bodyRows = []) := by
  refine ⟨by simp [renderDataTable], by simp [renderDataTable], ?_, ?_⟩
  · intro j hj
    have hj2 : j < (renderDataTable rows columns rowKey).bodyRows.length := by
      simpa [renderDataTable] using hj
    refine ⟨hj2, ?_, ?_⟩
    · simp [renderDataTable, List.get_eq_getElem, List.getElem_map]
    · intro i hi
      have hi2 : i <
          ((renderDataTable rows columns rowKey).bodyRows.get ⟨j, hj2⟩).2.length := by
        simpa [renderDataTable, List.get_eq_getElem, List.getElem_map] using hi
      refine ⟨hi2, ?_⟩
      simp [renderDataTable, List.get_eq_getElem, List.getElem_map]
  · intro h
    subst h
    rfl

/-- Witness for C6: the empty row collection renders a header-only table,
and the spec's two-row one-column scenario has one header cell. -/
theorem C6_render_shape_witness :
    (renderDataTable ([] : List Nat) ([] : List (DataTableColumn Nat String))
      (fun r => toString r)).bodyRows = [] ∧
    (renderDataTable [((1 : Nat), (5 : Nat)), (2, 9)]
      [{ header := "V", cell := fun r => toString r.2 }]
      (fun r => r.1)).headerCells.length = 1 :=
  ⟨(C6_render_shape [] [] (fun r => toString r)).2.2.2 rfl,
   (C6_render_shape [((1 : Nat), (5 : Nat)), (2, 9)]
      [{ header := "V", cell := fun r => toString r.2 }] (fun r => r.1)).1⟩

/-- C7: if the configured base URL or API key is absent at startup, module
initialization fails with a thrown error and never produces the
configuration a `fetcher` call needs; and no message a `fetcher` call
throws is one of the two startup configuration messages, so missing
configuration is never surfaced as a per-call error. -/
theorem C7_missing_config_fatal (b k : Option String)
    (h : b = none ∨ k = none) :
    (∃ msg, moduleInit b k = Except.error msg) ∧
    (∀ cfg, moduleInit b k ≠ Except.ok cfg) ∧
    (∀ resp msg, fetcherResponse resp = Except.error (FetchError.api msg) →
      msg ≠ "Could not get base url" ∧ msg ≠ "Could not get api key") := by
  refine ⟨?_, ?_, ?_⟩
  · rcases h with rfl | rfl
    · exact ⟨"Could not get base url", rfl⟩
    · cases b with
      | none => exact ⟨"Could not get base url", rfl⟩
      | some s =>
        by_cases hs : s = ""
        · subst hs
          exact ⟨"Could not get base url", rfl⟩
        · refine ⟨"Could not get api key", ?_⟩
          simp [moduleInit, envFalsy, hs]
  · intro cfg hok
    rcases h with rfl | rfl
    · simp [moduleInit, envFalsy] at hok
    · cases b with
      | none => simp [moduleInit, envFalsy] at hok
      | some s =>
        by_cases hs : s = "" <;> simp [moduleInit, envFalsy, hs] at hok
  · intro resp msg hmsg
    by_cases hok : resp.ok
    · cases hbody : resp.jsonBody with
      | none => simp [fetcherResponse, hok, hbody] at hmsg
      | some j => simp [fetcherResponse, hok, hbody] at hmsg
    · have : msg = "API Error: " ++ toString resp.status ++ ": " ++
          errorText (resp.jsonBody.getD (Json.obj [])) resp.statusText := by
        simp [fetcherResponse, hok] at hmsg
        exact hmsg.symm
      subst this
      constructor
      · rw [String.append_assoc, String.append_assoc]
        exact apiMsg_ne_base _
      · rw [String.append_assoc, String.append_assoc]
        exact apiMsg_ne_key _

/-- Witness for C7: with the base url absent, initialization fails. -/
theorem C7_missing_config_fatal_witness :
    ∃ msg, moduleInit none (some "demo-key") = Except.error msg :=
  (C7_missing_config_fatal none (some "demo-key") (Or.inl rfl)).1

/-- C8: when the `revalidate` argument of `fetcher` is omitted the value 60
is used, and whatever value is in effect is passed unchanged on the request
handed to the transport as the cache-revalidation hint. -/
theorem C8_revalidate_hint (cfg : Config) (e : String)
    (P : List (String × QueryValue)) :
    (fetcherRequest cfg e P).revalidate = 60 ∧
    (∀ r, (fetcherRequest cfg e P r).revalidate = r) ∧
    (∀ r transport, fetcher cfg e P r transport =
      fetcherResponse (transport (fetcherRequest cfg e P r))) :=
  ⟨rfl, fun _ => rfl, fun _ _ => rfl⟩

/-- C9: for every response with non-success status whose JSON body's error
field is the empty string, the thrown message uses the status text instead
of the empty server text — the same outcome as with the error field
absent. -/
theorem C9_empty_error_field (resp : HttpResponse)
    (hok : resp.ok = false)
    (herr : (resp.jsonBody.getD (Json.obj [])).getField "error" =
      some (Json.str "")) :
    fetcherResponse resp = Except.error (FetchError.api
      ("API Error: " ++ toString resp.status ++ ": " ++ resp.statusText)) ∧
    fetcherResponse resp =
      fetcherResponse ⟨resp.status, resp.statusText, some (Json.obj [])⟩ := by
  have hok2 :
      (⟨resp.status, resp.statusText, some (Json.obj [])⟩ : HttpResponse).ok =
        false := hok
  have h3 : errorText (resp.jsonBody.getD (Json.obj [])) resp.statusText =
      resp.statusText := by
    unfold errorText
    rw [herr]
    simp [Json.truthy]
  have h4 : errorText (Json.obj []) resp.statusText = resp.statusText := rfl
  constructor
  · simp [fetcherResponse, hok, h3]
  · simp [fetcherResponse, hok, hok2, h3, h4]

/-- Witness for C9 at a 401 response with body `{ "error": "" }`. -/
theorem C9_empty_error_field_witness :
    fetcherResponse ⟨401, "Unauthorized", some (Json.obj [("error", Json.str "")])⟩ =
      Except.error (FetchError.api "API Error: 401: Unauthorized") := by
  have h := C9_empty_error_field
    ⟨401, "Unauthorized", some (Json.obj [("error", Json.str "")])⟩ rfl rfl
  simpa using h.1

/-- C10: every exported table primitive renders exactly one element of its
corresponding HTML tag carrying its fixed `data-slot` attribute, forwards
all props other than `className` unchanged onto that element, and merges
the caller-supplied `className` with the component's defaults; `Table`
additionally wraps its `table` element in a container `div` with
`data-slot` `table-container`. -/
theorem C10_table_primitives (p : ElemProps) :
    (Table p).tag = "div" ∧
    (Table p).attrs.lookup "data-slot" = some "table-container" ∧
    (Table p).children = [Node.el "table"
      ([("data-slot", "table"),
        ("class", cn [some "w-full caption-bottom text-sm", p.className])] ++
        p.rest) []] ∧
    Node.countTag "table" (Table p) = 1 ∧
    Node.countTag "div" (Table p) = 1 ∧
    (TableHeader p = Node.el "thead"
      ([("data-slot", "table-header"),
        ("class", cn [some "[&_tr]:border-b", p.className])] ++ p.rest) [] ∧
      Node.countTag "thead" (TableHeader p) = 1) ∧
    (TableBody p = Node.el "tbody"
      ([("data-slot", "table-body"),
        ("class", cn [some "[&_tr:last-child]:border-0", p.className])] ++
        p.rest) [] ∧
      Node.countTag "tbody" (TableBody p) = 1) ∧
    (TableFooter p = Node.el "tfoot"
      ([("data-slot", "table-footer"),
        ("class", cn [some "bg-muted/50 border-t font-medium [&>tr]:last:border-b-0",
          p.className])] ++ p.rest) [] ∧
      Node.countTag "tfoot" (TableFooter p) = 1) ∧
    (TableRow p = Node.el "tr"
      ([("data-slot", "table-row"),
        ("class", cn [some
          "hover:bg-muted/50 data-[state=selected]:bg-muted border-b transition-colors",
          p.className])] ++ p.rest) [] ∧
      Node.countTag "tr" (TableRow p) = 1) ∧
    (TableHead p = Node.el "th"
      ([("data-slot", "table-head"),
        ("class", cn [some
          "text-foreground h-10 px-2 text-left align-middle font-medium whitespace-nowrap [&:has([role=checkbox])]:pr-0 [&>[role=checkbox]]:translate-y-[2px]",
          p.className])] ++ p.rest) [] ∧
      Node.countTag "th" (TableHead p) = 1) ∧
    (TableCell p = Node.el "td"
      ([("data-slot", "table-cell"),
        ("class", cn [some
          "p-2 align-middle whitespace-nowrap [&:has([role=checkbox])]:pr-0 [&>[role=checkbox]]:translate-y-[2px]",
          p.className])] ++ p.rest) [] ∧
      Node.countTag "td" (TableCell p) = 1) ∧
    (TableCaption p = Node.el "caption"
      ([("data-slot", "table-caption"),
        ("class", cn [some "text-muted-foreground mt-4 text-sm", p.className])] ++
        p.rest) [] ∧
      Node.countTag "caption" (TableCaption p) = 1) := by
  refine ⟨rfl, rfl, rfl, ?_, ?_, ⟨rfl, ?_⟩, ⟨rfl, ?_⟩, ⟨rfl, ?_⟩, ⟨rfl, ?_⟩,
    ⟨rfl, ?_⟩, ⟨rfl, ?_⟩, ⟨rfl, ?_⟩⟩ <;>
    simp [Table, TableHeader, TableBody, TableFooter, TableRow, TableHead,
      TableCell, TableCaption, Node.countTag, Node.countTagList]

end Coinpulse
